import Mathlib

/-!
Verification of the entrofy plotting module (src/entrofy/plotting.py).

The module is shallowly embedded.  pandas Series/DataFrame values become
Lean lists, the opaque mapper collaborator becomes a structure recording
its category list, its indicator function and its target mapping, and a
matplotlib axis becomes a value accumulating drawing actions.  Fractions
are exact rationals; the float NaN that pandas produces for the mean of a
zero-row column, and the non-finite value numpy produces for a division
by a zero denominator, are both modeled as Option.none.

The source targets the pandas era in which DataFrame.sort exists
(removed in pandas 0.20) and dict.keys() is a list (Python 2); the
embedding of the pandas primitives follows the documented behaviour of
those versions.
-/

namespace Entrofy

/-- Python values as relevant to this module: strings (object columns),
finite numbers, NaN and the two infinities. -/
inductive PyVal where
| str : String → PyVal
| num : ℚ → PyVal
| nan : PyVal
| inf : PyVal
| ninf : PyVal
deriving DecidableEq

/-- np.isfinite on one value: true exactly for finite numbers.  (numpy
raises on object dtype; the claims only exercise numeric columns here.) -/
def PyVal.isFinite : PyVal → Bool
| PyVal.num _ => true
| _ => false

/-- Display label of a value, as pandas would render it as a column name. -/
def PyVal.label : PyVal → String
| PyVal.str s => s
| PyVal.num q => toString q
| PyVal.nan => "nan"
| PyVal.inf => "inf"
| PyVal.ninf => "-inf"

/-- Modelled from the spec: the mapper abstraction (`ObjectMapper`,
`ContinuousMapper`) lives in entrofy.mappers, which is not part of the
provided source.  Per the spec's mapper contract, `transform(column)`
returns a row-aligned table with one column per recognized category and
entries in {0,1}, and `targets` maps each category label to a target
fraction.  A mapper is modeled by its category list, a per-value
indicator function giving the entry of the binarized table, and its
target mapping. -/
structure Mapper (α : Type) where
  categories : List String
  indicator : α → String → ℚ
  targets : List (String × ℚ)

/-- mapper.transform(column): the binarized table, stored per category
column as (category label, indicator column). -/
def Mapper.transform {α : Type} (m : Mapper α) (col : List α) : List (String × List ℚ) :=
  m.categories.map (fun c => (c, col.map (fun v => m.indicator v c)))

/-- A trivial mapper with no categories; stands in for a dictionary
lookup that cannot miss in the source. -/
def mapperDefault {α : Type} : Mapper α :=
  ⟨[], fun _ _ => 0, []⟩

/-- Column-wise mean as computed by DataFrame.describe().loc of the mean
row: NaN (none) on a zero-row column, the exact average otherwise. -/
def mean (xs : List ℚ) : Option ℚ :=
  match xs with
  | [] => none
  | _ => some (xs.sum / (xs.length : ℚ))

/-- One row of the summary DataFrame built by _make_counts_summary:
the category label, the "counts" entry (a column mean; none models NaN)
and the "type" tag. -/
structure SummaryRow where
  label : String
  counts : Option ℚ
  type : String
deriving DecidableEq

/-- Embedding of _make_counts_summary (plotting.py lines 12-49): binarize the column
with the mapper, take the column-wise mean of every indicator column via
describe(), and emit one row (category label, mean, datatype) per
category column of the binarized table. -/
def make_counts_summary {α : Type} (column : List α) (key : String) (m : Mapper α)
    (datatype : String) : List SummaryRow :=
  (m.transform column).map (fun p => ⟨p.1, mean p.2, datatype⟩)

/-- Lexicographic comparison of character lists by code point. -/
def charListLe : List Char → List Char → Bool
| [], _ => true
| _ :: _, [] => false
| x :: xs, y :: ys =>
  if x.toNat < y.toNat then true else if y.toNat < x.toNat then false else charListLe xs ys

/-- Lexicographic string comparison by code point — the order Python 2
uses on byte strings, hence the order numpy and pandas sort labels by. -/
def strLe (a b : String) : Bool :=
  charListLe a.data b.data

/-- Insert an element into an already sorted accumulator, after every
element that is ≤ it (so equal keys keep their arrival order). -/
def insortBy {α : Type} (le : α → α → Bool) (x : α) : List α → List α
| [] => [x]
| y :: ys => if le y x then y :: insortBy le x ys else x :: y :: ys

/-- Insertion sort, processing elements left to right. -/
def isortBy {α : Type} (le : α → α → Bool) (l : List α) : List α :=
  l.foldl (fun acc x => insortBy le x acc) []

/-- summary.sort(key): sort the summary rows by the label column,
ascending and lexicographic.  pandas delegates to numpy argsort whose
default quicksort runs its insertion-sort phase on partitions below 16
elements, which this insertion sort matches exactly; the tie behaviour
of the quicksort phase on larger inputs is external to this repository
(see the discussion at claim C6). -/
def sortByLabel (l : List SummaryRow) : List SummaryRow :=
  isortBy (fun a b => strLe a.label b.label) l

/-- np.sort over a list of strings (the mapper's target keys). -/
def sortStrings (l : List String) : List String :=
  isortBy strLe l

/-- column[idx] for a label list, as in the pandas versions this module
targets (the DataFrame.sort era, before 0.20): the series is reindexed
to the requested labels and a label absent from the index yields a
missing value (NaN, modeled none) instead of raising.  A series value
is itself Option-valued so that stored NaN entries are representable. -/
def seriesGet {β : Type} (col : List (String × Option β)) (idx : List String) :
    List (String × Option β) :=
  idx.map (fun i => (i, (col.lookup i).getD none))

/-- Whether selection entry i denotes a row present in the column whose
stored value has indicator 1 for category c; an absent identifier never
qualifies.  Used to phrase which selected rows a category counts. -/
def presentIndicatorOne {β : Type} (col : List (String × Option β)) (m : Mapper (Option β))
    (c : String) (i : String) : Bool :=
  ((col.lookup i).map (fun v => decide (m.indicator v c = 1))).getD false

/-- The figure produced by plot_fractions: the column key, the number of
unique labels sizing the figure, the sorted summary handed to the bar
plot, and one dashed target line per sorted target key. -/
structure Fig where
  key : String
  nLabels : ℕ
  barData : List SummaryRow
  hlines : List (String × ℚ)
deriving DecidableEq

/-- plot_fractions (plotting.py lines 51-105): summary of the full
column (tag "all"), summary of column[idx] (tag "selected"),
concatenation, sort by the key column, then the grouped bar chart with
one target line per sorted target key.  Returns (figure, summary). -/
def plot_fractions {β : Type} (column : List (String × Option β)) (idx : List String)
    (key : String) (m : Mapper (Option β)) : Fig × List SummaryRow :=
  let full_summary := make_counts_summary (column.map Prod.snd) key m ("all")
  let selected_summary := make_counts_summary ((seriesGet column idx).map Prod.snd) key m
    ("selected")
  let summary := sortByLabel (full_summary ++ selected_summary)
  let unique_labels := full_summary.length
  (⟨key, unique_labels,
    summary,
    (sortStrings (m.targets.map Prod.fst)).map (fun l => (l, (m.targets.lookup l).getD 0))⟩,
   summary)

/-- The collection loop of plot (plotting.py lines 131-134), one call
per column key; a raised exception aborts the loop at once, so an error
discards every figure collected so far. -/
def plotLoop (pf : String → Except String Fig) : List String → Except String (List Fig)
| [] => Except.ok []
| c :: cs =>
  match pf c with
  | Except.error e => Except.error e
  | Except.ok fig =>
    match plotLoop pf cs with
    | Except.error e => Except.error e
    | Except.ok figs => Except.ok (fig :: figs)

/-- plot (plotting.py lines 107-136): iterate the mapper dictionary's
keys in order and collect the figure of plot_fractions for each. -/
def plot {β : Type} (df : String → List (String × Option β)) (idx : List String)
    (mappers : List (String × Mapper (Option β))) : Except String (List Fig) :=
  plotLoop
    (fun c => Except.ok (plot_fractions (df c) idx c ((mappers.lookup c).getD mapperDefault)).1)
    (mappers.map Prod.fst)

/-- np.max of a list (the source only applies it to non-empty lists;
numpy raises on an empty one, the 0 default is never exercised). -/
def listMax (l : List ℚ) : ℚ :=
  match l with
  | [] => 0
  | x :: xs => xs.foldl max x

/-- np.min of a list, same remarks as listMax. -/
def listMin (l : List ℚ) : ℚ :=
  match l with
  | [] => 0
  | x :: xs => xs.foldl min x

/-- The data computed by _plot_categorical for the scatter grid: the
(i, j) grid positions, the cross-tabulated row counts, the marker sizes
counts², and the color scale values prefac·size/(max(sizes)−min(sizes)).
A color is none when the denominator is zero, modeling the non-finite
float (NaN or Inf) numpy produces for that division. -/
structure CatScatterData where
  tuples : List (ℕ × ℕ)
  counts : List ℕ
  sizes : List ℚ
  colors : List (Option ℚ)
deriving DecidableEq

/-- Embedding of _plot_categorical (plotting.py lines 140-168), data part.  df is the
table already projected to its (xlabel, ylabel) columns, one pair per
row; the rendering of the scatter onto the axis is the opaque backend. -/
def plot_categorical {α γ : Type} [DecidableEq α] [DecidableEq γ] [Inhabited α] [Inhabited γ]
    (df : List (α × γ)) (x_fields y_fields : ℕ)
    (x_keys : List α) (y_keys : List γ) (prefac : ℚ) : CatScatterData :=
  let tuples :=
    ((List.range x_fields).map (fun i => (List.range y_fields).map (fun j => (i, j)))).flatten
  let counts := tuples.map (fun ij =>
    df.countP (fun r =>
      decide (r.1 = x_keys.getD ij.1 default) && decide (r.2 = y_keys.getD ij.2 default)))
  let sizes := counts.map (fun n => ((n : ℚ)) ^ 2)
  let denom := listMax sizes - listMin sizes
  let colors := sizes.map (fun s => if denom = 0 then none else some (prefac * s / denom))
  ⟨tuples, counts, sizes, colors⟩

/-- binary.stack() starting at row index i: the (row index, category,
entry) triples in row-major order, categories in column order. -/
def stackFrom {α : Type} (m : Mapper α) : ℕ → List α → List (ℕ × String × ℚ)
| _, [] => []
| i, v :: vs =>
  (m.categories.map (fun c => (i, c, m.indicator v c))) ++ stackFrom m (i + 1) vs

/-- Embedding of _convert_continuous_to_categorical (plotting.py lines 170-174):
stack the binarized table, keep the entries that are not 0, and read the
category label off the second index level of each surviving entry. -/
def convert_continuous_to_categorical {α : Type} (column : List α) (m : Mapper α) :
    List String :=
  ((stackFrom m 0 column).filter (fun t => decide (t.2.2 ≠ 0))).map (fun t => t.2.1)

/-- A symbolic color: the i-th color of sns.color_palette(cmap, n).
The palette itself is an opaque external collaborator. -/
structure Color where
  cmap : String
  n : ℕ
  i : ℕ
deriving DecidableEq

/-- sns.color_palette(cmap, n) as a list of symbolic colors. -/
def color_palette (cmap : String) (n : ℕ) : List Color :=
  (List.range n).map (fun i => ⟨cmap, n, i⟩)

/-- A drawing action recorded on an axis. -/
inductive PlotAct where
| barplot : String → String → List SummaryRow → Color → PlotAct
| hist : List PyVal → ℕ → Color → PlotAct
| xlabelAct : String → PlotAct
| ylabelAct : String → PlotAct
deriving DecidableEq

/-- A matplotlib axis: whether it was freshly created by plt.subplots
inside the call, and the drawing actions performed on it. -/
structure Axis where
  fresh : Bool
  acts : List PlotAct
deriving DecidableEq

/-- The Python return value of plot_distribution: either an axis handle
or a palette color. -/
inductive RetVal where
| axisH : Axis → RetVal
| colorH : Color → RetVal
deriving DecidableEq

/-- Discriminator: is the returned value an axis handle? -/
def RetVal.isAxis : RetVal → Bool
| RetVal.axisH _ => true
| RetVal.colorH _ => false

/-- isOkE: whether an Except value is a success. -/
def isOkE {ε α : Type} : Except ε α → Bool
| Except.ok _ => true
| Except.error _ => false

/-- First-occurrence deduplication, as pandas collects the distinct
labels of an object column. -/
def dedupFirstAux : List String → List String → List String
| _, [] => []
| seen, x :: xs =>
  if x ∈ seen then dedupFirstAux seen xs else x :: dedupFirstAux (x :: seen) xs

/-- Modelled from the spec: ObjectMapper lives in entrofy.mappers, which
is not part of the provided source.  Per the spec it is the categorical
mapper, one-hot per distinct label; its targets record the observed
fraction of each label. -/
def ObjectMapper (col : List PyVal) : Mapper PyVal :=
  let labels := dedupFirstAux [] (col.map PyVal.label)
  ⟨labels,
   fun v c => if PyVal.label v = c then 1 else 0,
   labels.map (fun l =>
     (l, ((col.countP (fun v => decide (PyVal.label v = l))) : ℚ) / (col.length : ℚ)))⟩

/-- Modelled from the spec: ContinuousMapper lives in entrofy.mappers,
which is not part of the provided source.  Per the spec it bins a
continuous column into n_out buckets and one-hots the bucket; its own
default bucket count is not visible in the provided source, so the
module's n_out default of 3 is used where the source omits it.  Only its
existence matters to the claims: no theorem depends on its internals. -/
def ContinuousMapper (col : List PyVal) (n_out : ℕ) : Mapper PyVal :=
  let vals := col.filterMap (fun v => match v with | PyVal.num q => some q | _ => none)
  let lo := vals.foldl min (vals.headD 0)
  let hi := vals.foldl max (vals.headD 0)
  let w := (hi - lo) / (n_out : ℚ)
  let labels := (List.range n_out).map (fun i => ("bin") ++ toString i)
  ⟨labels,
   fun v c =>
     match v with
     | PyVal.num q =>
       if w = 0 then (if c = ("bin") ++ toString 0 then 1 else 0)
       else
         (if c = ("bin") ++ toString (min (n_out - 1) (((q - lo) / w).floor.toNat))
          then 1 else 0)
     | _ => 0,
   labels.map (fun l => (l, 1 / (n_out : ℚ)))⟩

/-- The body of plot_distribution once the mapper exists: pick the third
color of the 5-color palette, take or create the axis, then draw the
categorical bar chart or the continuous histogram; unrecognized tags
fall through every branch and draw nothing.  The pair holds the final
axis state and the function's Python return value. -/
def plot_distribution_body (df : String → List PyVal) (xlabel : String) (xm : Mapper PyVal)
    (xtype : String) (ax : Option Axis) (cmap : String) (nbins : ℕ) : Axis × RetVal :=
  let c := (color_palette cmap 5).getD 2 ⟨cmap, 5, 0⟩
  let ax0 := ax.getD ⟨true, []⟩
  let ax1 :=
    if xtype = "categorical" then
      let summary := sortByLabel (make_counts_summary (df xlabel) xlabel xm ("all"))
      ⟨ax0.fresh, ax0.acts ++
        [PlotAct.barplot xlabel ("counts") summary c,
         PlotAct.ylabelAct ("Fraction of sample")]⟩
    else if xtype = "continuous" then
      let c_clean := (df xlabel).filter PyVal.isFinite
      ⟨ax0.fresh, ax0.acts ++
        [PlotAct.hist c_clean nbins c,
         PlotAct.xlabelAct xlabel,
         PlotAct.ylabelAct ("Number of occurrences")]⟩
    else ax0
  (ax1, RetVal.colorH c)

/-- plot_distribution (plotting.py lines 303-336).  The type tag is
validated only when no mapper is supplied; with a mapper supplied an
unrecognized tag silently draws nothing.  The returned value is the
palette color c, not the axis. -/
def plot_distribution (df : String → List PyVal) (xlabel : String)
    (xmapper : Option (Mapper PyVal)) (xtype : String) (ax : Option Axis)
    (cmap : String) (nbins : ℕ) : Except String (Axis × RetVal) :=
  match xmapper with
  | some xm => Except.ok (plot_distribution_body df xlabel xm xtype ax cmap nbins)
  | none =>
    if xtype = "categorical" then
      Except.ok (plot_distribution_body df xlabel (ObjectMapper (df xlabel)) xtype ax cmap nbins)
    else if xtype = "continuous" then
      Except.ok (plot_distribution_body df xlabel (ContinuousMapper (df xlabel) 3) xtype ax cmap
        nbins)
    else Except.error ("xtype not valid.")

/-! Helper lemmas shared by several claims. -/

/-- The sum of a list of 0/1 rationals is the number of its ones. -/
lemma sum_zero_one (l : List ℚ) (h : ∀ x ∈ l, x = 0 ∨ x = 1) :
    l.sum = ((l.countP (fun x => decide (x = 1))) : ℚ) := by
  induction l with
  | nil => simp
  | cons a t ih =>
    have ha := h a (List.mem_cons_self a t)
    have ht : ∀ x ∈ t, x = 0 ∨ x = 1 := fun x hx => h x (List.mem_cons_of_mem a hx)
    rcases ha with h0 | h1
    · subst h0
      simp [List.countP_cons, ih ht]
    · subst h1
      rw [List.sum_cons, ih ht, List.countP_cons]
      simp
      ring

/-- Pointwise equal functions map a list to the same list. -/
lemma map_congr_mem {σ τ : Type} (l : List σ) (f g : σ → τ) (h : ∀ x ∈ l, f x = g x) :
    l.map f = l.map g := by
  induction l with
  | nil => rfl
  | cons a t ih =>
    simp only [List.map_cons]
    rw [h a (List.mem_cons_self a t), ih (fun x hx => h x (List.mem_cons_of_mem a hx))]

/-- Pointwise equal predicates count the same number of elements. -/
lemma countP_congr_mem {σ : Type} (l : List σ) (p q : σ → Bool) (h : ∀ x ∈ l, p x = q x) :
    l.countP p = l.countP q := by
  induction l with
  | nil => rfl
  | cons a t ih =>
    rw [List.countP_cons, List.countP_cons, h a (List.mem_cons_self a t),
      ih (fun x hx => h x (List.mem_cons_of_mem a hx))]

/-- mean takes its averaging branch on every non-empty list. -/
lemma mean_eq (xs : List ℚ) (h : xs ≠ []) : mean xs = some (xs.sum / (xs.length : ℚ)) := by
  cases xs with
  | nil => exact absurd rfl h
  | cons a t => rfl

/-- On a non-empty column whose binarized entries are all 0 or 1, the
summary lists, per category, the fraction of rows carrying a 1. -/
lemma counts_summary_general {α : Type} (column : List α) (key tag : String) (m : Mapper α)
    (hne : column ≠ [])
    (h01 : ∀ v ∈ column, ∀ c ∈ m.categories, m.indicator v c = 0 ∨ m.indicator v c = 1) :
    make_counts_summary column key m tag =
      m.categories.map (fun c =>
        ⟨c, some (((column.countP (fun v => decide (m.indicator v c = 1))) : ℚ) /
          ((column.length : ℚ))), tag⟩) := by
  unfold make_counts_summary Mapper.transform
  rw [List.map_map]
  refine map_congr_mem _ _ _ ?_
  intro c hc
  show SummaryRow.mk c (mean (column.map fun v => m.indicator v c)) tag = _
  have hne2 : column.map (fun v => m.indicator v c) ≠ [] := by
    cases column with
    | nil => exact absurd rfl hne
    | cons a t => simp
  have hx : ∀ x ∈ column.map (fun v => m.indicator v c), x = 0 ∨ x = 1 := by
    intro x hx
    rcases List.mem_map.1 hx with ⟨v, hv, rfl⟩
    exact h01 v hv c hc
  rw [mean_eq _ hne2, sum_zero_one _ hx, List.countP_map, List.length_map]
  rfl

/-! Claim theorems. -/

/-- Claim C1: for every non-empty column and mapper whose binarized
entries are 0/1 indicators, the summary built by _make_counts_summary
has exactly one row per category column of mapper.transform(column),
holding that category's label, the column-wise mean of its indicator
column — the fraction of rows with a 1 in that category — and the given
source tag. -/
theorem make_counts_summary_rows {α : Type} (column : List α) (key tag : String) (m : Mapper α)
    (hne : column ≠ [])
    (h01 : ∀ v ∈ column, ∀ c ∈ m.categories, m.indicator v c = 0 ∨ m.indicator v c = 1) :
    make_counts_summary column key m tag =
      m.categories.map (fun c =>
        ⟨c, some (((column.countP (fun v => decide (m.indicator v c = 1))) : ℚ) /
          ((column.length : ℚ))), tag⟩) :=
  counts_summary_general column key tag m hne h01

/-- Witness for C1 at a concrete two-row column with one category. -/
theorem make_counts_summary_rows_witness :
    make_counts_summary [(1 : ℚ), 2] ("k")
        ⟨[("a")], fun v _ => if v = 1 then 1 else 0, []⟩ ("all")
      = [⟨("a"), some (1 / 2), ("all")⟩] := by
  rw [make_counts_summary_rows [(1 : ℚ), 2] ("k") ("all")
    ⟨[("a")], fun v _ => if v = 1 then 1 else 0, []⟩ (by decide) (by decide)]
  norm_num [List.countP_cons]

/-- Claim C4 counterexample: on an empty input column the count summary
is produced normally, with the NaN fraction (none) the claim says is
prevented; no error of any kind is raised. -/
theorem counts_summary_empty_column_nan :
    make_counts_summary ([] : List ℚ) ("k") ⟨[("a")], fun _ _ => 1, []⟩ ("all")
      = [⟨("a"), none, ("all")⟩] := by
  decide

/-- Claim C4 amended: for an empty input column, _make_counts_summary
does not fail: it returns one row per mapper category whose fraction is
the undefined mean NaN (modeled none), silently. -/
theorem counts_summary_empty_rows {α : Type} (key tag : String) (m : Mapper α) :
    make_counts_summary ([] : List α) key m tag =
      m.categories.map (fun c => ⟨c, none, tag⟩) := by
  unfold make_counts_summary Mapper.transform
  rw [List.map_map]
  rfl

/-- Claim C3 counterexample: a selection containing the identifier r9,
absent from the column's row identifiers {r1, r2}, does not raise: the
pandas of the source's era reindexes with a missing value at r9 and
plot_fractions silently returns a figure and a diluted summary (the
selected fraction of b is 0 and of a is 1/2, the absent row counting
toward the denominator). -/
theorem plot_fractions_missing_index_silent :
    plot_fractions [(("r1"), some ("x")), (("r2"), some ("y"))] [("r1"), ("r9")] ("k")
        ⟨[("a"), ("b")],
         fun v c =>
           if (v = some ("x") ∧ c = ("a")) ∨ (v = some ("y") ∧ c = ("b")) then 1 else 0,
         [(("a"), 1), (("b"), 1)]⟩
      = (⟨("k"), 2,
          [⟨("a"), some (1 / 2), ("all")⟩, ⟨("a"), some (1 / 2), ("selected")⟩,
           ⟨("b"), some (1 / 2), ("all")⟩, ⟨("b"), some 0, ("selected")⟩],
          [(("a"), 1), (("b"), 1)]⟩,
         [⟨("a"), some (1 / 2), ("all")⟩, ⟨("a"), some (1 / 2), ("selected")⟩,
          ⟨("b"), some (1 / 2), ("all")⟩, ⟨("b"), some 0, ("selected")⟩]) := by
  have hab : strLe ("a") ("b") = true := by decide
  have hba : strLe ("b") ("a") = false := by decide
  have haa : strLe ("a") ("a") = true := by decide
  have hbb : strLe ("b") ("b") = true := by decide
  simp [plot_fractions, make_counts_summary, Mapper.transform, mean, seriesGet,
    sortByLabel, sortStrings, isortBy, insortBy, List.lookup, hab, hba, haa, hbb]

/-- Claim C3 amended: plot_fractions raises no InvalidSelectionError;
an index absent from the column's row identifiers is reindexed to a
missing value, and when the mapper maps missing values to an all-zero
indicator row, every "selected" fraction is (count of selected present
rows in the category) / (total selection size) — the absent indices
dilute the fractions instead of failing. -/
theorem selected_summary_dilution {β : Type} (column : List (String × Option β))
    (idx : List String) (key : String) (m : Mapper (Option β))
    (hne : idx ≠ [])
    (h0 : ∀ c ∈ m.categories, m.indicator none c = 0)
    (h01 : ∀ i ∈ idx, ∀ c ∈ m.categories,
      m.indicator ((column.lookup i).getD none) c = 0 ∨
        m.indicator ((column.lookup i).getD none) c = 1) :
    make_counts_summary ((seriesGet column idx).map Prod.snd) key m ("selected") =
      m.categories.map (fun c =>
        ⟨c, some (((idx.countP (presentIndicatorOne column m c)) : ℚ) /
          ((idx.length : ℚ))), ("selected")⟩) := by
  have hvs : (seriesGet column idx).map Prod.snd
      = idx.map (fun i => (column.lookup i).getD none) := by
    unfold seriesGet
    rw [List.map_map]
    rfl
  rw [hvs]
  rw [counts_summary_general _ key ("selected") m
    (by cases idx with
        | nil => exact absurd rfl hne
        | cons a t => simp)
    (by intro v hv c hc
        rcases List.mem_map.1 hv with ⟨i, hi, rfl⟩
        exact h01 i hi c hc)]
  refine map_congr_mem _ _ _ ?_
  intro c hc
  rw [List.countP_map, List.length_map]
  have hcount : idx.countP
        ((fun v => decide (m.indicator v c = 1)) ∘ fun i => (column.lookup i).getD none)
      = idx.countP (presentIndicatorOne column m c) := by
    refine countP_congr_mem _ _ _ ?_
    intro i hi
    simp only [Function.comp, presentIndicatorOne]
    have key : ∀ o : Option (Option β),
        decide (m.indicator (o.getD none) c = 1)
          = (o.map (fun v => decide (m.indicator v c = 1))).getD false := by
      intro o
      cases o with
      | some v => simp
      | none => simp [h0 c hc]
    exact key (column.lookup i)
  rw [hcount]

/-- Witness for C3's amended statement at the counterexample's input. -/
theorem selected_summary_dilution_witness :
    make_counts_summary
        ((seriesGet [(("r1"), some ("x")), (("r2"), some ("y"))] [("r1"), ("r9")]).map Prod.snd)
        ("k")
        ⟨[("a"), ("b")],
         fun v c =>
           if (v = some ("x") ∧ c = ("a")) ∨ (v = some ("y") ∧ c = ("b")) then 1 else 0,
         [(("a"), 1), (("b"), 1)]⟩
        ("selected")
      = [⟨("a"), some (1 / 2), ("selected")⟩, ⟨("b"), some 0, ("selected")⟩] := by
  rw [selected_summary_dilution _ _ _ _ (by decide) (by decide) (by decide)]
  simp [List.countP_cons, presentIndicatorOne, List.lookup]

/-- One row of the stacked binarized table, filtered to its nonzero
entries and projected to the category level, is exactly the list of the
row's nonzero categories. -/
lemma stack_row_aux {α : Type} (ind : α → String → ℚ) (v : α) (i : ℕ) (cs : List String) :
    ((cs.map (fun c => (i, c, ind v c))).filter (fun t => decide (t.2.2 ≠ 0))).map
        (fun t => t.2.1)
      = cs.filter (fun c => decide (ind v c ≠ 0)) := by
  induction cs with
  | nil => rfl
  | cons c cs ih =>
    cases hb : decide (ind v c ≠ 0) with
    | true => simp only [List.map_cons, List.filter, hb, ih]
    | false => simp only [List.map_cons, List.filter, hb, ih]

/-- A list of length one is the singleton of its default-free head. -/
lemma length_one_headD {σ : Type} (l : List σ) (d : σ) (h : l.length = 1) :
    l = [l.headD d] := by
  cases l with
  | nil => simp at h
  | cons a t =>
    cases t with
    | nil => rfl
    | cons b u => simp at h

/-- The stacked-filter-project pipeline, started at any row index, maps
each row to its unique nonzero category when rows have exactly one. -/
lemma convert_aux {α : Type} (m : Mapper α) (column : List α) (i : ℕ)
    (h : ∀ v ∈ column,
      (m.categories.filter (fun c => decide (m.indicator v c ≠ 0))).length = 1) :
    ((stackFrom m i column).filter (fun t => decide (t.2.2 ≠ 0))).map (fun t => t.2.1)
      = column.map (fun v =>
          (m.categories.filter (fun c => decide (m.indicator v c ≠ 0))).headD ("")) := by
  induction column generalizing i with
  | nil => rfl
  | cons v vs ih =>
    simp only [stackFrom, List.filter_append, List.map_append, List.map_cons]
    rw [stack_row_aux m.indicator v i m.categories]
    rw [ih (i + 1) (fun w hw => h w (List.mem_cons_of_mem v hw))]
    rw [length_one_headD _ ("") (h v (List.mem_cons_self v vs))]
    simp

/-- Claim C5: for every column whose binarized output has exactly one
nonzero indicator per row, _convert_continuous_to_categorical produces
exactly one entry per input row, each entry being the category label of
that row's nonzero indicator. -/
theorem convert_continuous_one_per_row {α : Type} (column : List α) (m : Mapper α)
    (h : ∀ v ∈ column,
      (m.categories.filter (fun c => decide (m.indicator v c ≠ 0))).length = 1) :
    convert_continuous_to_categorical column m
        = column.map (fun v =>
            (m.categories.filter (fun c => decide (m.indicator v c ≠ 0))).headD (""))
      ∧ (convert_continuous_to_categorical column m).length = column.length := by
  have heq := convert_aux m column 0 h
  refine ⟨heq, ?_⟩
  unfold convert_continuous_to_categorical
  rw [heq, List.length_map]

/-- Witness for C5: a two-bucket mapper assigns 0 to lo and 2 to hi. -/
theorem convert_continuous_one_per_row_witness :
    convert_continuous_to_categorical [(0 : ℚ), 2]
        ⟨[("lo"), ("hi")],
         fun v c =>
           if c = ("lo") then (if v ≤ 1 then 1 else 0) else (if v ≤ 1 then 0 else 1),
         []⟩
      = [("lo"), ("hi")] :=
  (convert_continuous_one_per_row [(0 : ℚ), 2]
    ⟨[("lo"), ("hi")],
     fun v c =>
       if c = ("lo") then (if v ≤ 1 then 1 else 0) else (if v ≤ 1 then 0 else 1),
     []⟩
    (by decide)).1.trans (by decide)

/-- Claim C2 finding: evaluating _plot_categorical on a table whose
cross-tabulated counts are all equal (here a single (x, y) cell holding
one row) reaches the color division with denominator
max(sizes) − min(sizes) = 0 and performs it unguarded, producing the
non-finite color value (none); no "at least two distinct counts"
requirement exists anywhere on this path. -/
theorem plot_categorical_unguarded :
    plot_categorical [(("a" : String), ("b" : String))] 1 1 [("a")] [("b")] 10
      = ⟨[(0, 0)], [1], [1], [none]⟩ := by
  simp [plot_categorical, listMax, listMin, List.range_succ]

/-- A loop over per-column plots that all succeed collects exactly the
figures, in order. -/
lemma plotLoop_ok_map (g : String → Fig) (l : List String) :
    plotLoop (fun c => Except.ok (g c)) l = Except.ok (l.map g) := by
  induction l with
  | nil => rfl
  | cons c cs ih => simp [plotLoop, ih]

/-- Claim C7: plot returns exactly one figure per key of the mapper
dictionary, in the dictionary's iteration order; and the collection
loop propagates a failure in any one column's plot immediately,
returning no partial result. -/
theorem plot_keys_and_propagation {β : Type} (df : String → List (String × Option β))
    (idx : List String) (mappers : List (String × Mapper (Option β))) :
    plot df idx mappers
        = Except.ok ((mappers.map Prod.fst).map (fun c =>
            (plot_fractions (df c) idx c ((mappers.lookup c).getD mapperDefault)).1))
      ∧ ∀ (pf : String → Except String Fig) (ks ks2 : List String) (c e : String),
          (∀ k ∈ ks, isOkE (pf k) = true) → pf c = Except.error e →
          plotLoop pf (ks ++ c :: ks2) = Except.error e := by
  constructor
  · exact plotLoop_ok_map _ _
  · intro pf ks ks2 c e
    induction ks with
    | nil =>
      intro _ herr
      simp [plotLoop, herr]
    | cons k kt ih =>
      intro hok herr
      have hk := hok k (List.mem_cons_self k kt)
      cases hpk : pf k with
      | error e2 =>
        rw [hpk] at hk
        simp [isOkE] at hk
      | ok fig =>
        have ht := ih (fun x hx => hok x (List.mem_cons_of_mem k hx)) herr
        simp [plotLoop, hpk, ht]

/-- Witness for C7: a loop whose first column succeeds and whose second
fails returns exactly that error and no figures. -/
theorem plot_keys_and_propagation_witness :
    plotLoop (fun k => if k = ("a") then Except.ok (⟨("a"), 0, [], []⟩ : Fig)
        else Except.error ("boom")) [("a"), ("b")]
      = Except.error ("boom") := by
  have h := (plot_keys_and_propagation (fun _ => ([] : List (String × Option Unit))) [] []).2
  refine h _ [("a")] [] ("b") ("boom") ?_ ?_
  · intro k hk
    simp at hk
    subst hk
    rfl
  · rfl

/-- sns.color_palette(cmap, 5)[2] is the symbolic third color. -/
lemma color_palette_two (cmap : String) (d : Color) :
    (color_palette cmap 5)[2]?.getD d = ⟨cmap, 5, 2⟩ := rfl

/-- Claim C8: with type tag continuous, plot_distribution drops every
non-finite value before binning, so the histogram receives exactly the
finite values and the count of plotted values equals the count of
finite values of the input column. -/
theorem plot_distribution_continuous_finite (df : String → List PyVal) (xlabel : String)
    (xmapper : Option (Mapper PyVal)) (ax : Option Axis) (cmap : String) (nbins : ℕ) :
    plot_distribution df xlabel xmapper ("continuous") ax cmap nbins
      = Except.ok (⟨(ax.getD ⟨true, []⟩).fresh,
          (ax.getD ⟨true, []⟩).acts ++
            [PlotAct.hist ((df xlabel).filter PyVal.isFinite) nbins ⟨cmap, 5, 2⟩,
             PlotAct.xlabelAct xlabel,
             PlotAct.ylabelAct ("Number of occurrences")]⟩,
         RetVal.colorH ⟨cmap, 5, 2⟩)
      ∧ ((df xlabel).filter PyVal.isFinite).length = (df xlabel).countP PyVal.isFinite := by
  constructor
  · cases xmapper with
    | some m => simp [plot_distribution, plot_distribution_body, color_palette_two]
    | none => simp [plot_distribution, plot_distribution_body, color_palette_two]
  · rw [List.countP_eq_length_filter]

/-- Claim C9 counterexample: with a mapper supplied, an unrecognized
type tag does not fail: the call succeeds, draws nothing, and returns
the palette color. -/
theorem plot_distribution_invalid_type_with_mapper_ok :
    plot_distribution (fun _ => [PyVal.num 1]) ("x") (some (mapperDefault : Mapper PyVal))
        ("weird") none ("viridis") 7
      = Except.ok (⟨true, []⟩, RetVal.colorH ⟨("viridis"), 5, 2⟩) := rfl

/-- Claim C9 amended: the type tag is validated only when no mapper is
supplied: in that case an unrecognized tag fails with the type error
before any axis is created (no partial output); with a mapper supplied
the same tag silently succeeds, drawing nothing. -/
theorem plot_distribution_invalid_type (df : String → List PyVal) (xlabel xtype : String)
    (ax : Option Axis) (cmap : String) (nbins : ℕ)
    (h1 : xtype ≠ ("categorical")) (h2 : xtype ≠ ("continuous")) :
    plot_distribution df xlabel none xtype ax cmap nbins = Except.error ("xtype not valid.")
      ∧ ∀ m : Mapper PyVal,
          plot_distribution df xlabel (some m) xtype ax cmap nbins
            = Except.ok (ax.getD ⟨true, []⟩, RetVal.colorH ⟨cmap, 5, 2⟩) := by
  constructor
  · simp [plot_distribution, h1, h2]
  · intro m
    simp [plot_distribution, plot_distribution_body, h1, h2, color_palette_two]

/-- Witness for C9's amended statement at the tag "bogus". -/
theorem plot_distribution_invalid_type_witness :
    plot_distribution (fun _ => []) ("x") none ("bogus") none ("YlGnBu") 30
        = Except.error ("xtype not valid.")
      ∧ plot_distribution (fun _ => []) ("x") (some (mapperDefault : Mapper PyVal)) ("bogus")
          none ("YlGnBu") 30
        = Except.ok (⟨true, []⟩, RetVal.colorH ⟨("YlGnBu"), 5, 2⟩) := by
  have h := plot_distribution_invalid_type (fun _ => []) ("x") ("bogus") none ("YlGnBu") 30
    (by decide) (by decide)
  exact ⟨h.1, h.2 mapperDefault⟩

/-- The body of plot_distribution always hands back the palette color
as the Python return value. -/
lemma plot_distribution_body_snd (df : String → List PyVal) (xlabel : String)
    (xm : Mapper PyVal) (xtype : String) (ax : Option Axis) (cmap : String) (nbins : ℕ) :
    (plot_distribution_body df xlabel xm xtype ax cmap nbins).2
      = RetVal.colorH ⟨cmap, 5, 2⟩ := rfl

/-- Claim C10 counterexample: a successful continuous call returns the
palette color, which is not an axis handle; the chart was drawn on the
axis recorded in the first component, which is not what is returned. -/
theorem plot_distribution_returns_color_cex :
    plot_distribution (fun _ => [PyVal.nan, PyVal.num 2]) ("x")
        (some (mapperDefault : Mapper PyVal)) ("continuous") none ("YlGnBu") 5
      = Except.ok (⟨true, [PlotAct.hist [PyVal.num 2] 5 ⟨("YlGnBu"), 5, 2⟩,
          PlotAct.xlabelAct ("x"), PlotAct.ylabelAct ("Number of occurrences")]⟩,
         RetVal.colorH ⟨("YlGnBu"), 5, 2⟩)
      ∧ RetVal.isAxis (RetVal.colorH ⟨("YlGnBu"), 5, 2⟩) = false :=
  ⟨rfl, rfl⟩

/-- Claim C10 amended: every successful call of plot_distribution
returns the chart color — the third color of the 5-color palette built
from the colormap — and never the axis handle. -/
theorem plot_distribution_returns_color (df : String → List PyVal) (xlabel : String)
    (xmapper : Option (Mapper PyVal)) (xtype : String) (ax : Option Axis) (cmap : String)
    (nbins : ℕ) (p : Axis × RetVal)
    (h : plot_distribution df xlabel xmapper xtype ax cmap nbins = Except.ok p) :
    p.2 = RetVal.colorH ⟨cmap, 5, 2⟩ := by
  cases xmapper with
  | some m =>
    simp only [plot_distribution] at h
    rw [← Except.ok.inj h]
    exact plot_distribution_body_snd df xlabel m xtype ax cmap nbins
  | none =>
    by_cases h1 : xtype = ("categorical")
    · simp only [plot_distribution, if_pos h1] at h
      rw [← Except.ok.inj h]
      exact plot_distribution_body_snd df xlabel _ xtype ax cmap nbins
    · by_cases h2 : xtype = ("continuous")
      · simp only [plot_distribution, if_neg h1, if_pos h2] at h
        rw [← Except.ok.inj h]
        exact plot_distribution_body_snd df xlabel _ xtype ax cmap nbins
      · simp only [plot_distribution, if_neg h1, if_neg h2] at h
        simp at h

/-- Witness for C10's amended statement at a concrete successful call. -/
theorem plot_distribution_returns_color_witness :
    ((⟨⟨true, [PlotAct.hist [] 3 ⟨("magma"), 5, 2⟩, PlotAct.xlabelAct ("x"),
        PlotAct.ylabelAct ("Number of occurrences")]⟩,
      RetVal.colorH ⟨("magma"), 5, 2⟩⟩ : Axis × RetVal)).2
      = RetVal.colorH ⟨("magma"), 5, 2⟩ :=
  plot_distribution_returns_color (fun _ => []) ("x") (some mapperDefault) ("continuous") none
    ("magma") 3
    (⟨⟨true, [PlotAct.hist [] 3 ⟨("magma"), 5, 2⟩, PlotAct.xlabelAct ("x"),
        PlotAct.ylabelAct ("Number of occurrences")]⟩,
      RetVal.colorH ⟨("magma"), 5, 2⟩⟩)
    rfl

end Entrofy
